import Mathlib

/-!
Verification of the huginn anomaly-detection agent.

The Go sources are shallowly embedded: float64 becomes ℝ, Go slices become
`List`, Go maps become association lists, and per-target goroutine fan-out
becomes a fold over the target list (no claim below depends on cross-target
ordering).  Timestamps and human-readable description strings are carried
nowhere into a decision, so they are omitted from the embedded records.
-/

namespace Huginn

open scoped Classical

/-- One metric sample kept in the detector's shared history
(`pkg/anomaly/detector.go`, `MetricObservation`).  The Go struct also stores
a wall-clock `Timestamp`; no computation reads it, so it is not modelled. -/
structure MetricObservation where
  resourceType : String
  resourceID : String
  metricType : String
  value : ℝ

/-- EWMA smoothing parameters (`MetricStats`); only the `alpha` field is live
in the source. -/
structure MetricStats where
  alpha : ℝ

/-- The anomaly detector state (`Detector`). -/
structure Detector where
  cpuThreshold : ℝ
  memoryThreshold : ℝ
  podRestarts : ℤ
  history : List MetricObservation
  maxHistorySize : ℕ
  debug : Bool
  minStdDev : ℝ
  cpuStats : MetricStats
  memoryStats : MetricStats
  restartStats : MetricStats

/-- Translation of the `NewDetector` constructor. -/
def NewDetector (cpuThreshold memoryThreshold : ℝ) (podRestarts : ℤ)
    (maxHistorySize : ℕ) (cpuAlpha memoryAlpha restartAlpha : ℝ)
    (debug : Bool) (minStdDev : ℝ) : Detector :=
  { cpuThreshold := cpuThreshold
    memoryThreshold := memoryThreshold
    podRestarts := podRestarts
    history := []
    maxHistorySize := maxHistorySize
    debug := debug
    minStdDev := minStdDev
    cpuStats := ⟨cpuAlpha⟩
    memoryStats := ⟨memoryAlpha⟩
    restartStats := ⟨restartAlpha⟩ }

/-- Translation of `recordObservation`: append the sample, then keep only the newest
`maxHistorySize` entries (`d.history = d.history[len-max:]`). -/
def recordObservation (d : Detector) (resourceType resourceID metricType : String)
    (value : ℝ) : Detector :=
  let obs : MetricObservation := ⟨resourceType, resourceID, metricType, value⟩
  let h := d.history ++ [obs]
  if d.maxHistorySize < h.length then
    { d with history := h.drop (h.length - d.maxHistorySize) }
  else
    { d with history := h }

/-- Translation of `GetMetricHistory`: values of all samples for one (kind, id, metric) key,
in insertion order. -/
def GetMetricHistory (d : Detector) (resourceType resourceID metricType : String) :
    List ℝ :=
  (d.history.filter fun obs =>
      obs.resourceType == resourceType && obs.resourceID == resourceID &&
        obs.metricType == metricType).map
    fun obs => obs.value

/-- Translation of `ComputeStats`: mean, sample standard deviation and EWMA of a value list.
In the source this is a method on `Detector` whose receiver is unused. -/
noncomputable def ComputeStats (values : List ℝ) (alpha : ℝ) : ℝ × ℝ × ℝ :=
  if values = [] then (0, 0, 0)
  else
    let sum := values.foldl (fun acc v => acc + v) 0
    let mean := sum / (values.length : ℝ)
    let variance := values.foldl (fun acc v => acc + (v - mean) * (v - mean)) 0
    let stddev :=
      if 1 < values.length then Real.sqrt (variance / ((values.length : ℝ) - 1)) else 0
    let ewma := values.tail.foldl (fun e v => alpha * v + (1 - alpha) * e) values.headI
    (mean, stddev, ewma)

/-- Translation of `isAnomalyHistory`: the layered classification policy as the code
implements it. -/
noncomputable def isAnomalyHistory (value mean stddev ewma threshold minStdDev : ℝ) :
    Prop :=
  if stddev < minStdDev then value > threshold
  else
    let zScore := |(value - mean) / stddev|
    let minEwmaDeviation : ℝ := 5.0
    let ewmaDeviation := |value - ewma|
    zScore > 3 ∨ value > threshold ∨ ewmaDeviation > max (2 * stddev) minEwmaDeviation

/-- The classification policy as the specification (and `ARCHITECTURE.md`)
words it: z-score above 4 with an 80%-of-threshold materiality gate, the hard
ceiling, and an EWMA break above `max(3*stddev, 5)` with a 70%-of-threshold
materiality gate.  Kept separate so it can be compared with
`isAnomalyHistory`. -/
def specClassifierGates (value mean stddev ewma threshold : ℝ) : Prop :=
  (|(value - mean) / stddev| > 4 ∧ value > 0.8 * threshold) ∨
    value > threshold ∨
    (|value - ewma| > max (3 * stddev) 5 ∧ value > 0.7 * threshold)

/-! ## Cluster state snapshot (`pkg/types/types.go`)

Only the fields the detection path reads are carried; `namespace`-named Go
fields are rendered `ns` because `namespace` is a Lean keyword, and the
anomaly `Type` field is rendered `type'`. -/

/-- A node of the observed snapshot (`types.Node`). -/
structure Node where
  name : String
  cpuUsagePercent : ℝ
  memoryUsagePercent : ℝ

/-- A pod of the observed snapshot (`types.Pod`). -/
structure Pod where
  name : String
  status : String
  restartCount : ℤ

/-- Per-namespace resources (`types.ResourceList`); the detector reads only
pods. -/
structure ResourceList where
  pods : List Pod

/-- A cluster event (`types.ClusterEvent`). -/
structure ClusterEvent where
  reason : String
  ns : String
  resource : String
  severity : String
  count : ℤ

/-- The per-target state snapshot (`types.ClusterState`); the namespace-keyed
`Resources` map is modelled as an association list in iteration order. -/
structure ClusterState where
  clusterID : String := ""
  clusterName : String := ""
  nodes : List Node := []
  resources : List (String × ResourceList) := []
  events : List ClusterEvent := []

/-- A detected anomaly (`types.Anomaly`); fields the detector never sets keep
their Go zero values. -/
structure Anomaly where
  clusterID : String := ""
  clusterName : String := ""
  type' : String := ""
  resource : String := ""
  ns : String := ""
  severity : String := ""
  value : ℝ := 0
  threshold : ℝ := 0

/-! ## DetectAnomalies (`pkg/anomaly/detector.go`)

The three loops of `Detector.DetectAnomalies` are rendered as one step
function per loop body, folded over the snapshot.  The detector threads
through the folds because `recordObservation` mutates it. -/

/-- Body of the node loop of `DetectAnomalies`: record the CPU and memory
samples, then classify.  When the CPU history is shorter than 5 samples the
Go loop body executes `continue` after the CPU threshold check, so the
memory checks of that node are skipped. -/
noncomputable def nodeStep (acc : List Anomaly × Detector) (node : Node) :
    List Anomaly × Detector :=
  let cpuUsagePercent := node.cpuUsagePercent
  let memoryUsagePercent := node.memoryUsagePercent
  let d := recordObservation acc.2 "node" node.name "cpu" cpuUsagePercent
  let d := recordObservation d "node" node.name "memory" memoryUsagePercent
  let anomalies := acc.1
  let cpuVals := GetMetricHistory d "node" node.name "cpu"
  if cpuVals.length < 5 then
    (if cpuUsagePercent > d.cpuThreshold then
        anomalies ++ [{ type' := "HighCPUUsage", resource := node.name,
                        severity := "High", value := cpuUsagePercent,
                        threshold := d.cpuThreshold }]
      else anomalies, d)
  else
    let s := ComputeStats cpuVals d.cpuStats.alpha
    let anomalies :=
      if isAnomalyHistory cpuUsagePercent s.1 s.2.1 s.2.2 d.cpuThreshold d.minStdDev then
        anomalies ++ [{ type' := "HighCPUUsage", resource := node.name,
                        severity := "High", value := cpuUsagePercent,
                        threshold := d.cpuThreshold }]
      else anomalies
    let memoryVals := GetMetricHistory d "node" node.name "memory"
    if memoryVals.length < 5 then
      (if memoryUsagePercent > d.memoryThreshold then
          anomalies ++ [{ type' := "HighMemoryUsage", resource := node.name,
                          severity := "High", value := memoryUsagePercent,
                          threshold := d.memoryThreshold }]
        else anomalies, d)
    else
      let m := ComputeStats memoryVals d.memoryStats.alpha
      (if isAnomalyHistory memoryUsagePercent m.1 m.2.1 m.2.2 d.memoryThreshold d.minStdDev then
          anomalies ++ [{ type' := "HighMemoryUsage", resource := node.name,
                          severity := "High", value := memoryUsagePercent,
                          threshold := d.memoryThreshold }]
        else anomalies, d)

/-- Body of the pod loop of `DetectAnomalies` for namespace `ns`.  When the
restart history is shorter than 3 samples the Go loop body executes
`continue` after the restart threshold check, so the `Status != "Running"`
check of that pod is skipped. -/
noncomputable def podStep (ns : String) (acc : List Anomaly × Detector) (pod : Pod) :
    List Anomaly × Detector :=
  let restartCount : ℝ := (pod.restartCount : ℝ)
  let d := recordObservation acc.2 "pod" pod.name "restarts" restartCount
  let anomalies := acc.1
  let restartVals := GetMetricHistory d "pod" pod.name "restarts"
  if restartVals.length < 3 then
    (if restartCount > (d.podRestarts : ℝ) then
        anomalies ++ [{ type' := "HighPodRestarts", resource := pod.name, ns := ns,
                        severity := "Medium", value := restartCount,
                        threshold := (d.podRestarts : ℝ) }]
      else anomalies, d)
  else
    let s := ComputeStats restartVals d.restartStats.alpha
    let anomalies :=
      if isAnomalyHistory restartCount s.1 s.2.1 s.2.2 (d.podRestarts : ℝ) d.minStdDev then
        anomalies ++ [{ type' := "HighPodRestarts", resource := pod.name, ns := ns,
                        severity := "Medium", value := restartCount,
                        threshold := (d.podRestarts : ℝ) }]
      else anomalies
    (if pod.status ≠ "Running" then
        anomalies ++ [{ type' := "PodNotRunning", resource := pod.name, ns := ns,
                        severity := "High" }]
      else anomalies, d)

/-- Event reasons the event loop treats as problematic. -/
def problematicReasons : List String :=
  ["FailedScheduling", "FailedMount", "FailedAttachVolume", "FailedCreate",
   "FailedDelete", "BackOff", "CrashLoopBackOff", "ImagePullBackOff"]

/-- Body of the event loop of `DetectAnomalies`: three independent rules; the
reason scan breaks after the first match, so it contributes at most one
anomaly. -/
def eventAnomalies (event : ClusterEvent) : List Anomaly :=
  (if event.severity = "Error" then
      [{ type' := "ClusterEvent", resource := event.resource, ns := event.ns,
         severity := "High" }]
    else []) ++
  (if event.severity = "Warning" ∧ 5 < event.count then
      [{ type' := "ClusterEvent", resource := event.resource, ns := event.ns,
         severity := "Medium" }]
    else []) ++
  (if event.reason ∈ problematicReasons then
      [{ type' := "ClusterEvent", resource := event.resource, ns := event.ns,
         severity := "High" }]
    else [])

/-- Translation of `Detector.DetectAnomalies`: one detection pass over a snapshot, returning
the anomaly list and the detector with its updated history. -/
noncomputable def DetectAnomalies (d : Detector) (state : ClusterState) :
    List Anomaly × Detector :=
  let afterNodes := state.nodes.foldl nodeStep ([], d)
  let afterPods := state.resources.foldl
    (fun acc entry => entry.2.pods.foldl (podStep entry.1) acc) afterNodes
  (afterPods.1 ++ state.events.foldl (fun acc e => acc ++ eventAnomalies e) [],
    afterPods.2)

/-! ## C4: the bounded shared history -/

/-- A sequence of `recordObservation` calls, each given as
(resourceType, resourceID, metricType, value). -/
def recordCalls (d : Detector) (calls : List (String × String × String × ℝ)) :
    Detector :=
  calls.foldl (fun d c => recordObservation d c.1 c.2.1 c.2.2.1 c.2.2.2) d

theorem recordObservation_maxHistorySize (d : Detector) (a b c : String) (v : ℝ) :
    (recordObservation d a b c v).maxHistorySize = d.maxHistorySize := by
  rw [recordObservation]
  split <;> rfl

theorem recordObservation_length_le (d : Detector) (a b c : String) (v : ℝ)
    (h : d.history.length ≤ d.maxHistorySize) :
    (recordObservation d a b c v).history.length ≤ d.maxHistorySize := by
  rw [recordObservation]
  split
  · simp only [List.length_drop, List.length_append, List.length_cons]
    omega
  · rename_i hle
    simp only [List.length_append, List.length_singleton] at hle ⊢
    omega

theorem recordCalls_length_le (calls : List (String × String × String × ℝ))
    (d : Detector) (h : d.history.length ≤ d.maxHistorySize) :
    (recordCalls d calls).history.length ≤ (recordCalls d calls).maxHistorySize := by
  induction calls generalizing d with
  | nil => exact h
  | cons c rest ih =>
    rw [recordCalls, List.foldl_cons]
    exact ih _ (by
      rw [recordObservation_maxHistorySize]
      exact recordObservation_length_le _ _ _ _ _ h)

theorem recordCalls_maxHistorySize (calls : List (String × String × String × ℝ))
    (d : Detector) : (recordCalls d calls).maxHistorySize = d.maxHistorySize := by
  induction calls generalizing d with
  | nil => rfl
  | cons c rest ih =>
    rw [recordCalls, List.foldl_cons]
    rw [← recordCalls, ih, recordObservation_maxHistorySize]

theorem recordObservation_evicts_oldest (d : Detector) (a b c : String) (v : ℝ)
    (hlen : d.history.length ≤ d.maxHistorySize)
    (hover : d.maxHistorySize < d.history.length + 1) :
    (recordObservation d a b c v).history =
      (d.history ++ [MetricObservation.mk a b c v]).tail := by
  rw [recordObservation]
  rw [if_pos (by simpa using hover)]
  have hm : d.history.length = d.maxHistorySize := by omega
  simp only [List.length_append, List.length_singleton, hm, Nat.add_sub_cancel_left]
  rw [List.drop_one]

/-- C4: starting from an empty history, after any sequence of `Record` calls
the buffer holds at most `maxHistorySize` samples; and whenever the next
insertion would exceed the cap, the resulting buffer is the appended buffer
with its globally oldest sample (the head, regardless of key) removed. -/
theorem record_history_bounded_and_fifo (d : Detector) (hd : d.history = [])
    (calls : List (String × String × String × ℝ))
    (c : String × String × String × ℝ) :
    (recordCalls d calls).history.length ≤ d.maxHistorySize ∧
      (d.maxHistorySize < (recordCalls d calls).history.length + 1 →
        (recordCalls d (calls ++ [c])).history =
          ((recordCalls d calls).history ++
            [MetricObservation.mk c.1 c.2.1 c.2.2.1 c.2.2.2]).tail) := by
  have hlen : (recordCalls d calls).history.length ≤ (recordCalls d calls).maxHistorySize :=
    recordCalls_length_le calls d (by rw [hd]; exact Nat.zero_le _)
  have hmax : (recordCalls d calls).maxHistorySize = d.maxHistorySize :=
    recordCalls_maxHistorySize calls d
  refine ⟨hmax ▸ hlen, fun hover => ?_⟩
  have happ : recordCalls d (calls ++ [c]) =
      recordObservation (recordCalls d calls) c.1 c.2.1 c.2.2.1 c.2.2.2 := by
    simp [recordCalls, List.foldl_append]
  rw [happ]
  exact recordObservation_evicts_oldest _ _ _ _ _ hlen (by omega)

/-- Witness for C4 at cap 1: recording one sample fills the buffer, and
recording a second evicts the first. -/
theorem record_history_bounded_and_fifo_witness :
    (recordCalls (NewDetector 80 80 3 1 0.3 0.3 0.3 false 1)
        [("node", "n1", "cpu", 5)]).history.length ≤ 1 ∧
      (recordCalls (NewDetector 80 80 3 1 0.3 0.3 0.3 false 1)
          [("node", "n1", "cpu", 5), ("node", "n1", "memory", 7)]).history =
        ((recordCalls (NewDetector 80 80 3 1 0.3 0.3 0.3 false 1)
            [("node", "n1", "cpu", 5)]).history ++
          [MetricObservation.mk "node" "n1" "memory" 7]).tail := by
  have h := record_history_bounded_and_fifo (NewDetector 80 80 3 1 0.3 0.3 0.3 false 1)
    rfl [("node", "n1", "cpu", 5)] ("node", "n1", "memory", 7)
  refine ⟨h.1, ?_⟩
  have h2 := h.2 (by norm_num [recordCalls, recordObservation, NewDetector, List.foldl])
  simpa using h2

/-! ## C6: ComputeStats against the reference definition -/

/-- EWMA as the specification words it: seeded with `values[0]`, then
`ewma = alpha*values[i] + (1-alpha)*ewma` for the remaining values. -/
def ewmaSpec (alpha : ℝ) : List ℝ → ℝ
  | [] => 0
  | v :: rest => rest.foldl (fun e x => alpha * x + (1 - alpha) * e) v

/-- The reference statistics of the specification: arithmetic mean, sample
standard deviation with Bessel's correction (zero when N < 2), and
`ewmaSpec`; all three zero on an empty list. -/
noncomputable def specComputeStats (values : List ℝ) (alpha : ℝ) : ℝ × ℝ × ℝ :=
  if values = [] then (0, 0, 0)
  else
    let n : ℝ := values.length
    let mean := values.sum / n
    let stddev :=
      if values.length < 2 then 0
      else Real.sqrt (((values.map fun v => (v - mean) ^ 2).sum) / (n - 1))
    (mean, stddev, ewmaSpec alpha values)

theorem foldl_add_eq_sum (f : ℝ → ℝ) (l : List ℝ) (a : ℝ) :
    l.foldl (fun acc v => acc + f v) a = a + (l.map f).sum := by
  induction l generalizing a with
  | nil => simp
  | cons x xs ih => simp [ih, add_assoc]

/-- C6: `ComputeStats` agrees with the reference definition on every input;
in particular a singleton list yields `(v, 0, v)`. -/
theorem ComputeStats_matches_reference :
    (∀ (values : List ℝ) (alpha : ℝ),
        ComputeStats values alpha = specComputeStats values alpha) ∧
      ∀ (v alpha : ℝ), ComputeStats [v] alpha = (v, 0, v) := by
  have main : ∀ (values : List ℝ) (alpha : ℝ),
      ComputeStats values alpha = specComputeStats values alpha := by
    intro values alpha
    rw [ComputeStats, specComputeStats]
    rcases values with _ | ⟨v, rest⟩
    · rfl
    · rw [if_neg (by simp), if_neg (by simp)]
      have hsum : (v :: rest).foldl (fun acc v => acc + v) 0 = (v :: rest).sum := by
        have := foldl_add_eq_sum (fun v => v) (v :: rest) 0
        simpa using this
      have hvar : ∀ m : ℝ, (v :: rest).foldl (fun acc x => acc + (x - m) * (x - m)) 0 =
          ((v :: rest).map fun x => (x - m) ^ 2).sum := by
        intro m
        have := foldl_add_eq_sum (fun x => (x - m) * (x - m)) (v :: rest) 0
        rw [this]
        simp [pow_two]
      have hcond : (1 < (v :: rest).length) = ¬((v :: rest).length < 2) := by
        simp only [eq_iff_iff]
        omega
      simp only [hsum, hvar, hcond, ite_not, List.tail_cons, List.headI_cons, ewmaSpec]
  refine ⟨main, fun v alpha => ?_⟩
  rw [main]
  rw [specComputeStats, if_neg (by simp)]
  simp [ewmaSpec]

/-! ## C8: the worked example of the specification -/

/-- C8: for the history `[10,10,10,10,10,95]` with `alpha = 0.3`,
`threshold = 80`, `minStdDev = 1`: the mean is `145/6 ≈ 24.2`, the standard
deviation `√(7225/6) ≈ 34.6…34.7` is at least `minStdDev`, the z-score of 95
is `≈ 2.05` so the statistical-outlier gate does not fire, the EWMA gate does
not fire either, and the classifier still returns true because `95 > 80`. -/
theorem computeStats_example_hard_ceiling_fires :
    ComputeStats [10, 10, 10, 10, 10, 95] 0.3 =
        (145 / 6, Real.sqrt (7225 / 6), 35.5) ∧
      |(145 / 6 : ℝ) - 24.2| < 0.05 ∧
      |Real.sqrt (7225 / 6) - 34.6| < 0.2 ∧
      (1 : ℝ) ≤ Real.sqrt (7225 / 6) ∧
      |(|((95 : ℝ) - 145 / 6) / Real.sqrt (7225 / 6)|) - 2.05| < 0.02 ∧
      ¬(|((95 : ℝ) - 145 / 6) / Real.sqrt (7225 / 6)| > 3) ∧
      ¬(|(95 : ℝ) - 35.5| > max (2 * Real.sqrt (7225 / 6)) 5) ∧
      (95 : ℝ) > 80 ∧
      isAnomalyHistory 95 (145 / 6) (Real.sqrt (7225 / 6)) 35.5 80 1 := by
  have harg : (0 : ℝ) ≤ 7225 / 6 := by norm_num
  have hs0 : 0 ≤ Real.sqrt (7225 / 6) := Real.sqrt_nonneg _
  have hs2 : Real.sqrt (7225 / 6) ^ 2 = 7225 / 6 := Real.sq_sqrt harg
  have hlow : (34.4 : ℝ) < Real.sqrt (7225 / 6) := by
    nlinarith [hs2, hs0]
  have hhigh : Real.sqrt (7225 / 6) < (34.8 : ℝ) := by
    nlinarith [hs2, hs0]
  have hspos : (0 : ℝ) < Real.sqrt (7225 / 6) := by linarith
  have hzabs : |((95 : ℝ) - 145 / 6) / Real.sqrt (7225 / 6)| =
      ((95 : ℝ) - 145 / 6) / Real.sqrt (7225 / 6) := by
    rw [abs_of_nonneg]
    positivity
  have hzlow : (2.03 : ℝ) < ((95 : ℝ) - 145 / 6) / Real.sqrt (7225 / 6) := by
    rw [lt_div_iff₀ hspos]
    nlinarith
  have hzhigh : ((95 : ℝ) - 145 / 6) / Real.sqrt (7225 / 6) < (2.07 : ℝ) := by
    rw [div_lt_iff₀ hspos]
    nlinarith
  refine ⟨?_, by rw [abs_of_neg (by norm_num)]; norm_num, ?_, by linarith, ?_, ?_, ?_,
    by norm_num, ?_⟩
  · rw [ComputeStats, if_neg (by simp)]
    norm_num [Prod.ext_iff]
  · rw [abs_lt]
    constructor <;> linarith
  · rw [hzabs, abs_lt]
    constructor <;> linarith
  · rw [hzabs]
    push_neg
    linarith
  · push_neg
    rw [abs_of_nonneg (by norm_num)]
    rw [le_max_iff]
    left
    linarith
  · rw [isAnomalyHistory, if_neg (by push_neg; linarith)]
    right; left
    norm_num

/-! ## C1: the classifier's gates -/

/-- C1: the claim lists the gates `zScore > 4 ∧ value > 0.8*threshold`,
`value > threshold`, `|value-ewma| > max(3*stddev,5) ∧ value > 0.7*threshold`
as exactly characterising `isAnomalyHistory` when `stddev ≥ minStdDev`.
At `value = 1, mean = 10, stddev = 2, ewma = 10, threshold = 100,
minStdDev = 1` the hypothesis `stddev ≥ minStdDev` holds and every listed
gate is false, yet the code classifies the value as anomalous: the code's
gates are `zScore > 3`, `value > threshold` and
`|value-ewma| > max(2*stddev,5)`, with no materiality gates. -/
theorem isAnomalyHistory_fires_outside_documented_gates :
    (1 : ℝ) ≤ 2 ∧ isAnomalyHistory 1 10 2 10 100 1 ∧
      ¬ specClassifierGates 1 10 2 10 100 := by
  refine ⟨by norm_num, ?_, ?_⟩
  · rw [isAnomalyHistory, if_neg (by norm_num)]
    left
    rw [abs_of_nonpos (by norm_num)]
    norm_num
  · rw [specClassifierGates]
    push_neg
    norm_num

/-! ## C5 and C7: the short-history `continue` statements -/

/-- C5: one node with CPU 10% and memory 95%, both thresholds 80, fresh
detector.  The node's memory history holds 1 < 5 samples and
95 exceeds the memory threshold, so the claim predicts a `HighMemoryUsage`
anomaly; the code emits nothing, because the `continue` taken when the CPU
history is short skips the node's memory checks entirely. -/
theorem detect_short_history_memory_check_skipped :
    (DetectAnomalies (NewDetector 80 80 3 1000 0.3 0.3 0.3 false 1)
        { nodes := [⟨"n1", 10, 95⟩] }).1 = [] ∧ (95 : ℝ) > 80 := by
  constructor
  · simp +decide only [DetectAnomalies, nodeStep, recordObservation, GetMetricHistory,
      NewDetector, List.foldl, List.filter, List.map, List.length]
    norm_num
  · norm_num

/-- C7: a pod in `Pending` state with restart count 0 and no prior history.
The claim predicts exactly one unconditional `PodNotRunning` anomaly of
severity High; the code emits nothing, because the `continue` taken when the
restart history holds fewer than 3 samples skips the pod status check. -/
theorem detect_pending_pod_without_history_no_anomaly :
    (DetectAnomalies (NewDetector 80 80 3 1000 0.3 0.3 0.3 false 1)
        { resources := [("default", ⟨[⟨"p1", "Pending", 0⟩]⟩)] }).1 = [] ∧
      "Pending" ≠ "Running" := by
  constructor
  · norm_num [DetectAnomalies, podStep, recordObservation, GetMetricHistory,
      NewDetector, List.foldl, List.filter]
  · decide

/-! ## C9: severity capitalisation vs the notification gate
(`pkg/agent/agent.go`, `shouldNotify`) -/

/-- Translation of the `severityLevels` map of `shouldNotify`; a Go map lookup on a missing
key yields the zero value 0, and the only keys are the lowercase severity
names. -/
def severityLevels (s : String) : ℤ :=
  if s = "low" then 1 else if s = "medium" then 2 else if s = "high" then 3 else 0

/-- Translation of `shouldNotify`: notify when the anomaly's severity level reaches the
configured minimum severity level. -/
def shouldNotify (anomaly : Anomaly) (minSeverity : String) : Bool :=
  severityLevels minSeverity ≤ severityLevels anomaly.severity

theorem nodeStep_severity (acc : List Anomaly × Detector) (node : Node)
    (a : Anomaly) (h : a ∈ (nodeStep acc node).1) :
    a ∈ acc.1 ∨ a.severity = "High" := by
  rw [nodeStep] at h
  split_ifs at h <;> simp only [List.mem_append, List.mem_singleton] at h <;> aesop

theorem podStep_severity (ns : String) (acc : List Anomaly × Detector) (pod : Pod)
    (a : Anomaly) (h : a ∈ (podStep ns acc pod).1) :
    a ∈ acc.1 ∨ a.severity = "High" ∨ a.severity = "Medium" := by
  rw [podStep] at h
  split_ifs at h <;> simp only [List.mem_append, List.mem_singleton] at h <;> aesop

theorem eventAnomalies_severity (event : ClusterEvent) (a : Anomaly)
    (h : a ∈ eventAnomalies event) : a.severity = "High" ∨ a.severity = "Medium" := by
  rw [eventAnomalies] at h
  split_ifs at h <;> simp only [List.mem_append, List.mem_singleton] at h <;> aesop

theorem foldl_nodeStep_severity (nodes : List Node) (acc : List Anomaly × Detector)
    (a : Anomaly) (h : a ∈ (nodes.foldl nodeStep acc).1) :
    a ∈ acc.1 ∨ a.severity = "High" := by
  induction nodes generalizing acc with
  | nil => exact Or.inl h
  | cons n ns ih =>
    rw [List.foldl_cons] at h
    rcases ih _ h with h' | h'
    · exact nodeStep_severity _ _ _ h'
    · exact Or.inr h'

theorem foldl_podStep_severity (ns : String) (pods : List Pod)
    (acc : List Anomaly × Detector) (a : Anomaly)
    (h : a ∈ (pods.foldl (podStep ns) acc).1) :
    a ∈ acc.1 ∨ a.severity = "High" ∨ a.severity = "Medium" := by
  induction pods generalizing acc with
  | nil => exact Or.inl h
  | cons p ps ih =>
    rw [List.foldl_cons] at h
    rcases ih _ h with h' | h'
    · exact podStep_severity _ _ _ _ h'
    · exact Or.inr h'

theorem foldl_resources_severity (resources : List (String × ResourceList))
    (acc : List Anomaly × Detector) (a : Anomaly)
    (h : a ∈ (resources.foldl
        (fun acc entry => entry.2.pods.foldl (podStep entry.1) acc) acc).1) :
    a ∈ acc.1 ∨ a.severity = "High" ∨ a.severity = "Medium" := by
  induction resources generalizing acc with
  | nil => exact Or.inl h
  | cons r rs ih =>
    rw [List.foldl_cons] at h
    rcases ih _ h with h' | h'
    · exact foldl_podStep_severity _ _ _ _ h'
    · exact Or.inr h'

theorem foldl_events_severity (events : List ClusterEvent) (init : List Anomaly)
    (a : Anomaly) (h : a ∈ events.foldl (fun acc e => acc ++ eventAnomalies e) init) :
    a ∈ init ∨ a.severity = "High" ∨ a.severity = "Medium" := by
  induction events generalizing init with
  | nil => exact Or.inl h
  | cons e es ih =>
    rw [List.foldl_cons] at h
    rcases ih _ h with h' | h'
    · rcases List.mem_append.mp h' with h'' | h''
      · exact Or.inl h''
      · exact Or.inr (eventAnomalies_severity _ _ h'')
    · exact Or.inr h'

theorem DetectAnomalies_severity (d : Detector) (state : ClusterState)
    (a : Anomaly) (h : a ∈ (DetectAnomalies d state).1) :
    a.severity = "High" ∨ a.severity = "Medium" := by
  rw [DetectAnomalies] at h
  rcases List.mem_append.mp h with h' | h'
  · rcases foldl_resources_severity _ _ _ h' with h'' | h''
    · rcases foldl_nodeStep_severity _ _ _ h'' with h''' | h'''
      · simp at h'''
      · exact Or.inl h'''
    · exact h''
  · rcases foldl_events_severity _ _ _ h' with h'' | h''
    · simp at h''
    · exact h''

/-- C9: every anomaly the detector emits carries severity "High" or
"Medium" (capitalised), `shouldNotify` looks severities up in a map whose
only keys are the lowercase names (a missing key scoring 0), so for every
configured minimum severity in {low, medium, high} no detector-emitted
anomaly is ever notified. -/
theorem detector_anomalies_never_notified (d : Detector) (state : ClusterState)
    (a : Anomaly) (ha : a ∈ (DetectAnomalies d state).1) (minSeverity : String)
    (hm : minSeverity = "low" ∨ minSeverity = "medium" ∨ minSeverity = "high") :
    (a.severity = "High" ∨ a.severity = "Medium") ∧
      shouldNotify a minSeverity = false := by
  have hsev := DetectAnomalies_severity d state a ha
  refine ⟨hsev, ?_⟩
  rw [shouldNotify]
  have hzero : severityLevels a.severity = 0 := by
    rcases hsev with h | h <;> rw [h] <;> rfl
  have hmin : 1 ≤ severityLevels minSeverity := by
    rcases hm with h | h | h <;> rw [h] <;> decide
  rw [hzero]
  simp only [decide_eq_false_iff_not, not_le]
  omega

/-- Witness for C9: a fresh detector, a snapshot holding one Error event, the
resulting `ClusterEvent` anomaly, and minimum severity "high". -/
theorem detector_anomalies_never_notified_witness :
    ({ type' := "ClusterEvent", resource := "r1", ns := "default",
       severity := "High" } : Anomaly) ∈
        (DetectAnomalies (NewDetector 80 80 3 1000 0.3 0.3 0.3 false 1)
          { events := [⟨"SomeReason", "default", "r1", "Error", 1⟩] }).1 ∧
      shouldNotify
        { type' := "ClusterEvent", resource := "r1", ns := "default",
          severity := "High" } "high" = false := by
  have hmem : ({ type' := "ClusterEvent", resource := "r1", ns := "default",
                 severity := "High" } : Anomaly) ∈
        (DetectAnomalies (NewDetector 80 80 3 1000 0.3 0.3 0.3 false 1)
          { events := [⟨"SomeReason", "default", "r1", "Error", 1⟩] }).1 := by
    simp +decide [DetectAnomalies, eventAnomalies, problematicReasons]
  exact ⟨hmem, (detector_anomalies_never_notified _ _ _ hmem "high" (by tauto)).2⟩

/-! ## Cluster manager (`pkg/cluster/manager.go`)

The manager's `map[string]*ClusterAgent` is modelled as an association list
with Go-map insert semantics (replace an existing key, otherwise add); the
summary computations below never depend on entry order.  Go's `*ClusterState`
becomes `Option ClusterState` and the stored `error` becomes
`Option String`. -/

/-- Per-cluster configuration (`config.ClusterConfig`), restricted to the
fields the manager and the agent factory read. -/
structure ClusterConfig where
  id : String
  name : String
  enabled : Bool

/-- A registry record for one cluster (`cluster.ClusterAgent`); the
`LastUpdated` wall-clock field is not modelled. -/
structure ClusterAgent where
  clusterConfig : ClusterConfig
  state : Option ClusterState
  healthy : Bool
  error : Option String

/-- Go-map insertion for the registry. -/
def registryInsert (rs : List (String × ClusterAgent)) (id : String)
    (c : ClusterAgent) : List (String × ClusterAgent) :=
  if rs.any fun p => p.1 == id then
    rs.map fun p => if p.1 == id then (id, c) else p
  else rs ++ [(id, c)]

/-- Translation of `Manager.InitializeClusters`: one healthy record with an empty state per
enabled cluster. -/
def InitializeClusters (configs : List ClusterConfig) :
    List (String × ClusterAgent) :=
  configs.foldl
    (fun rs c =>
      if c.enabled then
        registryInsert rs c.id
          { clusterConfig := c
            state := some { clusterID := c.id, clusterName := c.name }
            healthy := true
            error := none }
      else rs)
    []

/-- Translation of `Manager.GetCluster`. -/
def GetCluster (rs : List (String × ClusterAgent)) (clusterID : String) :
    Option ClusterAgent :=
  (rs.find? fun p => p.1 == clusterID).map fun p => p.2

/-- Translation of `Manager.UpdateClusterState`: replace the state, mark healthy, clear the
error; a missing id leaves the registry unchanged (the Go method returns a
not-found error). -/
def UpdateClusterState (rs : List (String × ClusterAgent)) (clusterID : String)
    (state : ClusterState) : List (String × ClusterAgent) :=
  rs.map fun p =>
    if p.1 == clusterID then
      (p.1, { p.2 with state := some state, healthy := true, error := none })
    else p

/-- Translation of `Manager.SetClusterHealth`: update health and error of an existing id. -/
def SetClusterHealth (rs : List (String × ClusterAgent)) (clusterID : String)
    (healthy : Bool) (err : Option String) : List (String × ClusterAgent) :=
  rs.map fun p =>
    if p.1 == clusterID then (p.1, { p.2 with healthy := healthy, error := err })
    else p

/-- The aggregate summary (`types.ClusterSummary`); the `TotalAnomalies` and
`LastUpdated` fields are never written by `GetMultiClusterState` and are not
modelled. -/
structure ClusterSummary where
  totalClusters : ℕ
  healthyClusters : ℕ
  unhealthyClusters : ℕ
  totalNodes : ℕ

/-- Translation of `types.MultiClusterState`. -/
structure MultiClusterState where
  clusters : List (String × ClusterState)
  summary : ClusterSummary

/-- Loop body of `Manager.GetMultiClusterState`. -/
def summarizeStep (ms : MultiClusterState) (p : String × ClusterAgent) :
    MultiClusterState :=
  let ms :=
    match p.2.state with
    | some st => { ms with clusters := ms.clusters ++ [(p.1, st)] }
    | none => ms
  let ms := { ms with summary :=
    { ms.summary with totalClusters := ms.summary.totalClusters + 1 } }
  let ms :=
    if p.2.healthy then
      { ms with summary :=
        { ms.summary with healthyClusters := ms.summary.healthyClusters + 1 } }
    else
      { ms with summary :=
        { ms.summary with unhealthyClusters := ms.summary.unhealthyClusters + 1 } }
  match p.2.state with
  | some st =>
      { ms with summary :=
        { ms.summary with totalNodes := ms.summary.totalNodes + st.nodes.length } }
  | none => ms

/-- Translation of `Manager.GetMultiClusterState`. -/
def GetMultiClusterState (rs : List (String × ClusterAgent)) : MultiClusterState :=
  rs.foldl summarizeStep { clusters := [], summary := ⟨0, 0, 0, 0⟩ }

/-- Registry states reachable through the manager's mutating interface. -/
inductive ReachableRegistry : List (String × ClusterAgent) → Prop where
  | init (configs : List ClusterConfig) : ReachableRegistry (InitializeClusters configs)
  | update (rs : List (String × ClusterAgent)) (id : String) (st : ClusterState) :
      ReachableRegistry rs → ReachableRegistry (UpdateClusterState rs id st)
  | setHealth (rs : List (String × ClusterAgent)) (id : String) (h : Bool)
      (e : Option String) : ReachableRegistry rs →
      ReachableRegistry (SetClusterHealth rs id h e)

theorem summarize_foldl (rs : List (String × ClusterAgent)) (ms : MultiClusterState) :
    (rs.foldl summarizeStep ms).summary.totalClusters =
        ms.summary.totalClusters + rs.length ∧
      (rs.foldl summarizeStep ms).summary.healthyClusters +
          (rs.foldl summarizeStep ms).summary.unhealthyClusters =
        ms.summary.healthyClusters + ms.summary.unhealthyClusters + rs.length ∧
      (rs.foldl summarizeStep ms).summary.totalNodes =
        ms.summary.totalNodes +
          (rs.map fun p =>
            match p.2.state with
            | some st => st.nodes.length
            | none => 0).sum := by
  induction rs generalizing ms with
  | nil => simp
  | cons q t ih =>
    rw [List.foldl_cons]
    refine ⟨?_, ?_, ?_⟩ <;>
      · rcases ih (summarizeStep ms q) with ⟨h1, h2, h3⟩
        rw [summarizeStep] at *
        rcases hq : q.2.state with _ | st <;> rcases hh : q.2.healthy <;>
          simp_all <;> omega

/-- C10: for every reachable registry state, the summary satisfies
`TotalClusters = HealthyClusters + UnhealthyClusters`, `TotalClusters` equals
the number of registered targets, and `TotalNodes` is the sum of the node
counts of the registered targets that carry a state. -/
theorem getMultiClusterState_summary_consistent
    (rs : List (String × ClusterAgent)) (_hr : ReachableRegistry rs) :
    (GetMultiClusterState rs).summary.totalClusters =
        (GetMultiClusterState rs).summary.healthyClusters +
          (GetMultiClusterState rs).summary.unhealthyClusters ∧
      (GetMultiClusterState rs).summary.totalClusters = rs.length ∧
      (GetMultiClusterState rs).summary.totalNodes =
        (rs.map fun p =>
          match p.2.state with
          | some st => st.nodes.length
          | none => 0).sum := by
  rcases summarize_foldl rs { clusters := [], summary := ⟨0, 0, 0, 0⟩ } with ⟨h1, h2, h3⟩
  rw [GetMultiClusterState]
  refine ⟨?_, ?_, ?_⟩ <;> simp_all

/-- Witness for C10: a registry built by initialising two configured targets
(one disabled) and then recording an observed state for the enabled one. -/
theorem getMultiClusterState_summary_consistent_witness :
    (GetMultiClusterState (UpdateClusterState
          (InitializeClusters [⟨"a", "A", true⟩, ⟨"b", "B", false⟩]) "a"
          { nodes := [⟨"n1", 10, 20⟩] })).summary.totalClusters =
        (GetMultiClusterState (UpdateClusterState
            (InitializeClusters [⟨"a", "A", true⟩, ⟨"b", "B", false⟩]) "a"
            { nodes := [⟨"n1", 10, 20⟩] })).summary.healthyClusters +
          (GetMultiClusterState (UpdateClusterState
              (InitializeClusters [⟨"a", "A", true⟩, ⟨"b", "B", false⟩]) "a"
              { nodes := [⟨"n1", 10, 20⟩] })).summary.unhealthyClusters ∧
      (GetMultiClusterState (UpdateClusterState
          (InitializeClusters [⟨"a", "A", true⟩, ⟨"b", "B", false⟩]) "a"
          { nodes := [⟨"n1", 10, 20⟩] })).summary.totalClusters =
        (UpdateClusterState (InitializeClusters [⟨"a", "A", true⟩, ⟨"b", "B", false⟩])
          "a" { nodes := [⟨"n1", 10, 20⟩] }).length ∧
      (GetMultiClusterState (UpdateClusterState
          (InitializeClusters [⟨"a", "A", true⟩, ⟨"b", "B", false⟩]) "a"
          { nodes := [⟨"n1", 10, 20⟩] })).summary.totalNodes =
        ((UpdateClusterState (InitializeClusters [⟨"a", "A", true⟩, ⟨"b", "B", false⟩])
            "a" { nodes := [⟨"n1", 10, 20⟩] }).map fun p =>
          match p.2.state with
          | some st => st.nodes.length
          | none => 0).sum :=
  getMultiClusterState_summary_consistent _
    (ReachableRegistry.update _ _ _ (ReachableRegistry.init _))

/-! ## Per-cluster agent and multi-cluster orchestrator
(`pkg/agent/agent.go`, `pkg/agent/multi_agent.go`, `main.go`)

The external collector (`ObserveCluster`) performs Kubernetes I/O; a cycle is
therefore modelled against an oracle `results : String → Option ClusterState`
giving each target's collector outcome (`none` = collection error).  Go
goroutines mutate each agent struct through its own pointer, so the fan-out
becomes a `map` over the agent list; the error channel and the anomaly
channel become the fold of the per-target outcomes. -/

/-- Anomaly-detection configuration (`config.AnomalyDetectionConfig`); the
`debug` flag passed to `NewDetector` is hard-coded `false` at both call
sites. -/
structure AnomalyDetectionConfig where
  cpuThreshold : ℝ
  memoryThreshold : ℝ
  podRestartThreshold : ℤ
  maxHistorySize : ℕ
  cpuAlpha : ℝ
  memoryAlpha : ℝ
  restartAlpha : ℝ
  minStdDev : ℝ

/-- The application configuration (`config.Config`), restricted to the parts
the orchestration path reads. -/
structure Config where
  clusters : List ClusterConfig
  anomalyDetection : AnomalyDetectionConfig

/-- A per-cluster agent (`agent.Agent`), restricted to the detection path:
its own detector and its latest observed state.  The storage, embedding,
notification and metrics collaborators are external. -/
structure Agent where
  detector : Detector
  state : ClusterState

/-- Translation of `NewAgentWithoutMetrics`: requires a non-empty cluster list and builds an
agent with a fresh detector from the shared anomaly-detection settings.  The
kubeconfig/client construction is local I/O that either succeeds or makes
the factory fail; only the success path constructs an agent. -/
def NewAgentWithoutMetrics (cfg : Config) : Option Agent :=
  match cfg.clusters with
  | [] => none
  | _ :: _ =>
      some
        { detector :=
            NewDetector cfg.anomalyDetection.cpuThreshold
              cfg.anomalyDetection.memoryThreshold
              cfg.anomalyDetection.podRestartThreshold
              cfg.anomalyDetection.maxHistorySize cfg.anomalyDetection.cpuAlpha
              cfg.anomalyDetection.memoryAlpha cfg.anomalyDetection.restartAlpha
              false cfg.anomalyDetection.minStdDev
          state := {} }

/-- The multi-cluster orchestrator (`agent.MultiClusterAgent`).  Its
`detector` field is the single detector built in `NewMultiClusterAgent`; it
is handed to the Prometheus exporter and is distinct from the per-agent
detectors. -/
structure MultiClusterAgent where
  agents : List (String × Agent)
  clusterManager : List (String × ClusterAgent)
  detector : Detector

/-- Translation of `createClusterAgents`: one agent per enabled cluster, each built by
`NewAgentWithoutMetrics` on a single-cluster copy of the configuration (so
each agent owns a fresh detector); the shared metrics/storage/notifier/model
handles it also receives are external collaborators. -/
def createClusterAgents (cfg : Config) : List (String × Agent) :=
  cfg.clusters.foldl
    (fun agents c =>
      if c.enabled then
        match NewAgentWithoutMetrics
            { clusters := [c], anomalyDetection := cfg.anomalyDetection } with
        | some a => agents ++ [(c.id, a)]
        | none => agents
      else agents)
    []

/-- Translation of `NewMultiClusterAgent`: initialise the cluster manager, build the shared
detector for the metrics exporter, and create the per-cluster agents. -/
def NewMultiClusterAgent (cfg : Config) : MultiClusterAgent :=
  { agents := createClusterAgents cfg
    clusterManager := InitializeClusters cfg.clusters
    detector :=
      NewDetector cfg.anomalyDetection.cpuThreshold
        cfg.anomalyDetection.memoryThreshold
        cfg.anomalyDetection.podRestartThreshold
        cfg.anomalyDetection.maxHistorySize cfg.anomalyDetection.cpuAlpha
        cfg.anomalyDetection.memoryAlpha cfg.anomalyDetection.restartAlpha
        false cfg.anomalyDetection.minStdDev }

/-- Translation of `ObserveAllClusters`: per target, a collector failure marks it unhealthy
in the manager and leaves the agent untouched; a success replaces the
agent's state and stores an id/name-tagged copy in the manager.  The
returned flag is whether the error channel is non-empty, in which case the
Go method returns a non-nil aggregate error. -/
def ObserveAllClusters (m : MultiClusterAgent)
    (results : String → Option ClusterState) : MultiClusterAgent × Bool :=
  let agents := m.agents.map fun p =>
    match results p.1 with
    | none => p
    | some st => (p.1, { p.2 with state := st })
  let manager := m.agents.foldl
    (fun mgr p =>
      match results p.1 with
      | none => SetClusterHealth mgr p.1 false (some "observe error")
      | some st =>
          UpdateClusterState mgr p.1
            { st with clusterID := p.1,
                      clusterName :=
                        match GetCluster mgr p.1 with
                        | some c => c.clusterConfig.name
                        | none => st.clusterName })
    m.clusterManager
  let hasErrors := m.agents.any fun p => (results p.1).isNone
  ({ m with agents := agents, clusterManager := manager }, hasErrors)

/-- Translation of `Agent.DetectAnomalies` restricted to its detection result: the Prometheus
update, vector storage and notification sends are external side effects that
do not change the returned anomaly list (the notification filter itself is
`shouldNotify`, treated with C9). -/
noncomputable def AgentDetectAnomalies (a : Agent) : List Anomaly × Agent :=
  let r := DetectAnomalies a.detector a.state
  (r.1, { a with detector := r.2 })

/-- Translation of `DetectAllAnomalies`: every agent runs Detect on its own detector and
state; each anomaly is tagged with that target's id and configured name, and
all results are concatenated. -/
noncomputable def DetectAllAnomalies (m : MultiClusterAgent) :
    List Anomaly × MultiClusterAgent :=
  let tag := fun (id : String) (a : Anomaly) =>
    { a with clusterID := id,
             clusterName :=
               match GetCluster m.clusterManager id with
               | some c => c.clusterConfig.name
               | none => a.clusterName }
  (m.agents.foldl
      (fun acc p => acc ++ ((AgentDetectAnomalies p.2).1.map (tag p.1))) [],
    { m with agents := m.agents.map fun p => (p.1, (AgentDetectAnomalies p.2).2) })

/-- One tick of the main loop (`main.go`): observe every cluster; when
`ObserveAllClusters` returns an error the loop logs it and executes
`continue`, skipping Learn and Detect for that cycle (`none`); otherwise
Learn (which never fails; its reward bookkeeping is not modelled) and then
detect across all clusters. -/
noncomputable def mainCycle (m : MultiClusterAgent)
    (results : String → Option ClusterState) :
    MultiClusterAgent × Option (List Anomaly) :=
  let o := ObserveAllClusters m results
  if o.2 then (o.1, none)
  else
    let r := DetectAllAnomalies o.1
    (r.2, some r.1)

/-! ## C2: one failed Observe suppresses the whole cycle -/

/-- Two enabled targets with the default-like detection settings. -/
def cfgAB : Config :=
  { clusters := [⟨"A", "ClusterA", true⟩, ⟨"B", "ClusterB", true⟩]
    anomalyDetection := ⟨80, 80, 3, 1000, 0.3, 0.3, 0.3, 1⟩ }

/-- Collector oracle of the failing cycle: target A's collector errors,
target B observes a node at 95% CPU. -/
def resultsAFails : String → Option ClusterState :=
  fun id => if id = "B" then some { nodes := [⟨"nB", 95, 10⟩] } else none

/-- C2: with target A's Observe failing and target B's succeeding, the cycle
produces no anomaly output at all (`none`): `ObserveAllClusters` returns an
aggregate error and the main loop's `continue` skips Learn and Detect for
every target.  A is marked unhealthy and B healthy, and running the Detect
phase on the post-Observe state shows B's anomaly existed and would have
been forwarded — the cycle suppresses it. -/
theorem cycle_skips_detection_when_one_observe_fails :
    (mainCycle (NewMultiClusterAgent cfgAB) resultsAFails).2 = none ∧
      (GetCluster (mainCycle (NewMultiClusterAgent cfgAB) resultsAFails).1.clusterManager
          "A").map ClusterAgent.healthy = some false ∧
      (GetCluster (mainCycle (NewMultiClusterAgent cfgAB) resultsAFails).1.clusterManager
          "B").map ClusterAgent.healthy = some true ∧
      (DetectAllAnomalies
          (ObserveAllClusters (NewMultiClusterAgent cfgAB) resultsAFails).1).1 =
        [{ clusterID := "B", clusterName := "ClusterB", type' := "HighCPUUsage",
           resource := "nB", severity := "High", value := 95, threshold := 80 }] := by
  refine ⟨?_, ?_, ?_, ?_⟩
  · simp +decide [mainCycle, ObserveAllClusters, NewMultiClusterAgent,
      createClusterAgents, NewAgentWithoutMetrics, cfgAB, resultsAFails]
  · simp +decide [mainCycle, ObserveAllClusters, NewMultiClusterAgent,
      createClusterAgents, NewAgentWithoutMetrics, InitializeClusters,
      registryInsert, SetClusterHealth, UpdateClusterState, GetCluster,
      cfgAB, resultsAFails, NewDetector]
  · simp +decide [mainCycle, ObserveAllClusters, NewMultiClusterAgent,
      createClusterAgents, NewAgentWithoutMetrics, InitializeClusters,
      registryInsert, SetClusterHealth, UpdateClusterState, GetCluster,
      cfgAB, resultsAFails, NewDetector]
  · simp +decide only [DetectAllAnomalies, AgentDetectAnomalies, DetectAnomalies,
      ObserveAllClusters, NewMultiClusterAgent, createClusterAgents,
      NewAgentWithoutMetrics, InitializeClusters, registryInsert,
      SetClusterHealth, UpdateClusterState, GetCluster, nodeStep,
      recordObservation, GetMetricHistory, NewDetector, cfgAB, resultsAFails,
      List.foldl, List.map, List.filter, List.find?, List.any, List.length]
    norm_num [(by decide : ("A" == "B") = false), (by decide : ("B" == "B") = true),
      (by decide : ("B" == "A") = false), (by decide : ("A" == "A") = true)]

/-! ## C3: per-target detectors, no shared history -/

/-- The Detect phase as the claim describes it: one single shared
Detector/MetricHistoryStore instance serving every enabled target, threaded
through the targets in order with its global eviction policy.  Kept separate
so it can be compared with `DetectAllAnomalies`. -/
noncomputable def specSharedDetectAll (d : Detector) (targets : List ClusterState) :
    List Anomaly × Detector :=
  targets.foldl
    (fun acc st =>
      let r := DetectAnomalies acc.2 st
      (acc.1 ++ r.1, r.2))
    ([], d)

/-- A quiet and a high-churn target sharing detection settings with a global
history cap of 2 samples. -/
def cfgBA : Config :=
  { clusters := [⟨"B", "Quiet", true⟩, ⟨"A", "Churny", true⟩]
    anomalyDetection := ⟨100, 100, 3, 2, 0.3, 0.3, 0.3, 1⟩ }

/-- The quiet target's snapshot: one node, two samples per cycle. -/
def stateQuiet : ClusterState := { nodes := [⟨"nB", 1, 2⟩] }

/-- The high-churn target's snapshot: three nodes, six samples per cycle —
more than the whole global cap of 2. -/
def stateChurn : ClusterState :=
  { nodes := [⟨"a1", 1, 2⟩, ⟨"a2", 3, 4⟩, ⟨"a3", 5, 6⟩] }

/-- Collector oracle for the eviction workload. -/
def resultsBA : String → Option ClusterState :=
  fun id => if id = "B" then some stateQuiet else some stateChurn

/-- C3 counterexample: on the claim's own eviction workload (cap 2, quiet
target B observed before high-churn target A), the code leaves B's
post-Detect history exactly its own two samples — A's six `Record` calls
evict nothing of B's — whereas the claimed shared-instance model ends the
phase with a history holding only A's last two samples, B's samples evicted.
The Detect phase therefore does not operate on one shared instance. -/
theorem multi_detect_no_cross_target_eviction :
    ((DetectAllAnomalies
          (ObserveAllClusters (NewMultiClusterAgent cfgBA) resultsBA).1).2.agents.find?
        fun p => p.1 == "B").map (fun p => p.2.detector.history) =
      some [⟨"node", "nB", "cpu", 1⟩, ⟨"node", "nB", "memory", 2⟩] ∧
      (specSharedDetectAll (NewDetector 100 100 3 2 0.3 0.3 0.3 false 1)
          [stateQuiet, stateChurn]).2.history =
        [⟨"node", "a3", "cpu", 5⟩, ⟨"node", "a3", "memory", 6⟩] := by
  constructor
  · simp +decide only [DetectAllAnomalies, AgentDetectAnomalies, DetectAnomalies,
      ObserveAllClusters, NewMultiClusterAgent, createClusterAgents,
      NewAgentWithoutMetrics, InitializeClusters, registryInsert,
      SetClusterHealth, UpdateClusterState, GetCluster, nodeStep,
      recordObservation, GetMetricHistory, NewDetector, cfgBA, resultsBA,
      stateQuiet, stateChurn, List.foldl, List.map, List.filter, List.find?,
      List.any, List.length]
    norm_num
  · simp +decide only [specSharedDetectAll, DetectAnomalies, nodeStep,
      recordObservation, GetMetricHistory, NewDetector, stateQuiet, stateChurn,
      List.foldl, List.map, List.filter, List.length]
    norm_num

theorem find_map_detect (l : List (String × Agent)) (id : String) (a : Agent)
    (h : l.find? (fun p => p.1 == id) = some (id, a)) :
    ((l.map fun p => (p.1, (AgentDetectAnomalies p.2).2)).find?
        fun p => p.1 == id) = some (id, (AgentDetectAnomalies a).2) := by
  induction l with
  | nil => simp at h
  | cons q t ih =>
    rw [List.map_cons]
    rw [List.find?_cons] at h
    rw [List.find?_cons]
    by_cases hq : (q.1 == id) = true
    · simp only [hq] at h ⊢
      obtain ⟨rfl, rfl⟩ : q.1 = id ∧ q.2 = a := by
        have h2 := Option.some.inj h
        exact ⟨congrArg Prod.fst h2, congrArg Prod.snd h2⟩
      rfl
    · simp only [Bool.not_eq_true] at hq
      simp only [hq] at h ⊢
      exact ih h

/-- C3 amended: in the multi-target Detect phase each registered target's
post-Detect agent is obtained by running Detect on that target's own
detector and own state alone — the detectors are per-target, the
orchestrator's single `detector` field only feeds the metrics exporter, and
one target's `Record` calls never touch (in particular never evict) another
target's history. -/
theorem detectAll_uses_own_detector (m : MultiClusterAgent) (id : String)
    (a : Agent) (h : m.agents.find? (fun p => p.1 == id) = some (id, a)) :
    ((DetectAllAnomalies m).2.agents.find? fun p => p.1 == id) =
      some (id, (AgentDetectAnomalies a).2) := by
  rw [DetectAllAnomalies]
  exact find_map_detect m.agents id a h

/-- Witness for C3's amended theorem on the eviction workload: target B's
own agent determines its post-Detect entry. -/
theorem detectAll_uses_own_detector_witness :
    ((DetectAllAnomalies
          (ObserveAllClusters (NewMultiClusterAgent cfgBA) resultsBA).1).2.agents.find?
        fun p => p.1 == "B") =
      some ("B",
        (AgentDetectAnomalies
          ⟨NewDetector 100 100 3 2 0.3 0.3 0.3 false 1, stateQuiet⟩).2) := by
  refine detectAll_uses_own_detector _ "B"
    ⟨NewDetector 100 100 3 2 0.3 0.3 0.3 false 1, stateQuiet⟩ ?_
  simp +decide [ObserveAllClusters, NewMultiClusterAgent, createClusterAgents,
    NewAgentWithoutMetrics, InitializeClusters, registryInsert,
    UpdateClusterState, GetCluster, cfgBA, resultsBA, NewDetector]

end Huginn
